import Mathlib

/-!
Verification development for the jean-memory context store and query router.

The definitions below are a shallow embedding of the Python source:
  - backend/database/context_storage.py  (class ContextDatabase)
  - backend/routers/context_router.py    (keyword classifier and ContextRouter.route)
  - backend/routers/notes_router.py and the other specialized per-category routers
  - backend/jean_mcp/tools/core_memory_tools.py (clear_jean_memory_bank)

Modelling conventions:
  - The PostgreSQL context table is a list of rows plus a counter for the
    SERIAL id column; the users table likewise.
  - Timestamps (NOW()) are abstract Nat ticks passed in explicitly.
  - JSONB documents are the inductive type Json below; the text rendering that
    PostgreSQL produces for a stored jsonb value (and that asyncpg hands back to
    Python, since context_storage.py registers no jsonb type codec) is
    Json.dumps.  String escaping is not modelled: the documents in the claims
    contain no characters that JSON escapes.
  - A raised Python exception is Except.error; an exception that the source
    catches with try/except is folded into the value the except branch returns.
  - ContextDatabase.pool is modelled by the flag poolUp (pool is not None) and
    a backing-store fault during an operation by the flag failing.
-/

/-- A JSON document, the payload type of the content and metadata columns. -/
inductive Json where
  | null : Json
  | bool : Bool → Json
  | num : Int → Json
  | str : String → Json
  | arr : List Json → Json
  | obj : List (String × Json) → Json

mutual

/-- The text rendering of a stored jsonb document, as PostgreSQL prints it
(key order as stored, one space after each colon and comma). -/
def Json.dumps : Json → String
  | Json.null => "null"
  | Json.bool b => if b then "true" else "false"
  | Json.num n => toString n
  | Json.str s => "\"" ++ s ++ "\""
  | Json.arr xs => "[" ++ Json.dumpsArr xs ++ "]"
  | Json.obj fs => "\x7b" ++ Json.dumpsObj fs ++ "\x7d"

/-- Renders the elements of a JSON array, comma separated. -/
def Json.dumpsArr : List Json → String
  | [] => ""
  | [x] => Json.dumps x
  | x :: y :: xs => Json.dumps x ++ ", " ++ Json.dumpsArr (y :: xs)

/-- Renders the fields of a JSON object, comma separated. -/
def Json.dumpsObj : List (String × Json) → String
  | [] => ""
  | [(k, v)] => "\"" ++ k ++ "\": " ++ Json.dumps v
  | (k, v) :: p :: fs =>
      "\"" ++ k ++ "\": " ++ Json.dumps v ++ ", " ++ Json.dumpsObj (p :: fs)

end

/-- Python substring containment over character lists: the needle occurs
contiguously in the haystack.  Models the expression needle in hay. -/
def occursIn (needle : List Char) : List Char → Bool
  | [] => needle.isEmpty
  | c :: cs => needle.isPrefixOf (c :: cs) || occursIn needle cs

/-- Python needle in hay on strings. -/
def pyIn (needle hay : String) : Bool :=
  occursIn needle.data hay.data

/-- Python str.lower(), as a character-by-character map (String.toLower in
the library, restated over the character list so that it evaluates). -/
def pyLower (s : String) : String :=
  String.mk (s.data.map Char.toLower)

/-- Case-insensitive substring test, modelling content::text ILIKE the
pattern made of the query wrapped in percent signs (search_context builds
the pattern by interpolation; metacharacters inside the query are not
modelled, the claims use plain text queries). -/
def pyILike (hay pat : String) : Bool :=
  pyIn (pyLower pat) (pyLower hay)

/-- One row of the context table (schema created in ContextDatabase.initialize). -/
structure Row where
  id : Nat
  user_id : Nat
  tenant_id : String
  context_type : String
  source_identifier : Option String
  content : Json
  metadata : Json
  created_at : Nat
  updated_at : Nat

/-- One row of the users table. -/
structure UserRow where
  id : Nat
  tenant_id : String
  google_id : Option String
  email : Option String
  api_key : Option String
deriving DecidableEq

/-- A context item as the Python dict that get_context / search_context build
from a fetched record: the SELECT omits user_id and tenant_id, and asyncpg
returns the jsonb columns as their text rendering, so content and metadata
here are Json.str of the dumped document. -/
structure Entry where
  id : Nat
  context_type : String
  source_identifier : Option String
  content : Json
  metadata : Json
  created_at : Option Nat
  updated_at : Option Nat

/-- Converts a table row to the dict get_context returns, modelling that
asyncpg hands the jsonb columns to Python as text (no type codec is
registered) and that the timestamps are rendered with isoformat. -/
def rowToEntry (r : Row) : Entry :=
  { id := r.id
    context_type := r.context_type
    source_identifier := r.source_identifier
    content := Json.str (Json.dumps r.content)
    metadata := Json.str (Json.dumps r.metadata)
    created_at := some r.created_at
    updated_at := some r.updated_at }

/-- A Python exception that an operation raises to its caller. -/
inductive PyExn where
  | connectionError : PyExn
  | typeError : PyExn
deriving DecidableEq

/-- The state of a ContextDatabase instance together with its backing store. -/
structure ContextDatabase where
  users : List UserRow
  rows : List Row
  nextUserId : Nat
  nextId : Nat
  poolUp : Bool
  failing : Bool

/-- Insertion step of the sort by updated_at descending (ORDER BY updated_at
DESC; ties broken deterministically in the model). -/
def insertRowDesc (r : Row) : List Row → List Row
  | [] => [r]
  | x :: xs =>
      if x.updated_at ≤ r.updated_at then r :: x :: xs
      else x :: insertRowDesc r xs

/-- ORDER BY updated_at DESC over the selected rows. -/
def sortByUpdatedDesc : List Row → List Row
  | [] => []
  | r :: rs => insertRowDesc r (sortByUpdatedDesc rs)

/-- The uniqueness-tuple predicate of the ON CONFLICT clause, for a supplied
(non-NULL) source identifier. -/
def keyFilter (user_id : Nat) (tenant_id context_type s : String) : Row → Bool :=
  fun r =>
    r.tenant_id == tenant_id && r.user_id == user_id &&
    r.context_type == context_type && r.source_identifier == some s

/-- The row a fresh INSERT creates (SERIAL id, created_at and updated_at NOW()). -/
def mkRow (id : Nat) (user_id : Nat) (tenant_id context_type : String)
    (source_identifier : Option String) (content metadata : Json) (now : Nat) : Row :=
  { id := id
    user_id := user_id
    tenant_id := tenant_id
    context_type := context_type
    source_identifier := source_identifier
    content := content
    metadata := metadata
    created_at := now
    updated_at := now }

/-- ContextDatabase.store_context.  Raises ConnectionError when the pool is
absent; any error inside the try block is caught and reported as False.  The
INSERT has ON CONFLICT (tenant_id, user_id, context_type, source_identifier)
DO UPDATE; SQL unique constraints treat NULLs as distinct, so a NULL
source_identifier never conflicts and always inserts a new row.  The metadata
argument defaults to the empty object (json.dumps of the empty dict when the
Python value is falsy). -/
def store_context (db : ContextDatabase) (now : Nat) (user_id : Nat)
    (tenant_id context_type : String) (content : Json)
    (source_identifier : Option String) (metadata : Option Json) :
    Except PyExn (ContextDatabase × Bool) :=
  if !db.poolUp then Except.error PyExn.connectionError
  else if db.failing then Except.ok (db, false)
  else
    let meta := metadata.getD (Json.obj [])
    match source_identifier with
    | none =>
        Except.ok
          ({ db with
              rows := mkRow db.nextId user_id tenant_id context_type none content meta now
                        :: db.rows
              nextId := db.nextId + 1 }, true)
    | some s =>
        if db.rows.any (keyFilter user_id tenant_id context_type s) then
          Except.ok
            ({ db with
                rows := db.rows.map fun r =>
                  if keyFilter user_id tenant_id context_type s r then
                    { r with content := content, metadata := meta, updated_at := now }
                  else r }, true)
        else
          Except.ok
            ({ db with
                rows := mkRow db.nextId user_id tenant_id context_type (some s) content meta now
                          :: db.rows
                nextId := db.nextId + 1 }, true)

/-- Row selection of ContextDatabase.get_context: WHERE user_id, tenant_id and
context_type match, with the extra source_identifier conjunct only when the
Python argument is truthy (not None and not the empty string), ordered by
updated_at descending, then LIMIT when one is given. -/
def get_context_rows (db : ContextDatabase) (user_id : Nat)
    (tenant_id context_type : String) (source_identifier : Option String)
    (limit : Option Nat) : List Row :=
  let base := db.rows.filter fun r =>
    r.user_id == user_id && r.tenant_id == tenant_id && r.context_type == context_type
  let bySrc :=
    match source_identifier with
    | some s => if s == "" then base else base.filter (fun r => r.source_identifier == some s)
    | none => base
  let sorted := sortByUpdatedDesc bySrc
  match limit with
  | some l => sorted.take l
  | none => sorted

/-- ContextDatabase.get_context.  Raises ConnectionError when the pool is
absent; an exception inside the try block (a backing-store fault) is caught
and the empty list is returned (source lines 186-188). -/
def get_context (db : ContextDatabase) (user_id : Nat)
    (tenant_id context_type : String) (source_identifier : Option String)
    (limit : Option Nat) : Except PyExn (List Entry) :=
  if !db.poolUp then Except.error PyExn.connectionError
  else if db.failing then Except.ok []
  else Except.ok
    ((get_context_rows db user_id tenant_id context_type source_identifier limit).map rowToEntry)

/-- ContextDatabase.search_context: ILIKE substring filter over the text
rendering of the content column, same scoping, ordering and limiting as
get_context; a fault inside the try block yields the empty list (source
lines 353-355). -/
def search_context (db : ContextDatabase) (user_id : Nat)
    (tenant_id context_type : String) (query : String) (limit : Option Nat) :
    Except PyExn (List Entry) :=
  if !db.poolUp then Except.error PyExn.connectionError
  else if db.failing then Except.ok []
  else
    let base := db.rows.filter fun r =>
      r.user_id == user_id && r.tenant_id == tenant_id &&
      r.context_type == context_type && pyILike (Json.dumps r.content) query
    let sorted := sortByUpdatedDesc base
    let limited :=
      match limit with
      | some l => sorted.take l
      | none => sorted
    Except.ok (limited.map rowToEntry)

/-- ContextDatabase.delete_user_data: DELETE FROM context WHERE user_id and
tenant_id match; True on success, False when the try block catches a fault. -/
def delete_user_data (db : ContextDatabase) (user_id : Nat) (tenant_id : String) :
    Except PyExn (ContextDatabase × Bool) :=
  if !db.poolUp then Except.error PyExn.connectionError
  else if db.failing then Except.ok (db, false)
  else Except.ok
    ({ db with
        rows := db.rows.filter fun r => !(r.user_id == user_id && r.tenant_id == tenant_id) },
      true)

/-- ContextDatabase.get_all_context_by_type: SELECT content FROM context WHERE
user_id and context_type match — no tenant_id parameter and no tenant_id
conjunct in the WHERE clause — ordered by updated_at descending; each content
string is parsed back with json.loads, so the structured documents are
returned.  A fault inside the try block yields the empty list. -/
def get_all_context_by_type (db : ContextDatabase) (user_id : Nat)
    (context_type : String) : Except PyExn (List Json) :=
  if !db.poolUp then Except.error PyExn.connectionError
  else if db.failing then Except.ok []
  else Except.ok
    ((sortByUpdatedDesc
        (db.rows.filter fun r => r.user_id == user_id && r.context_type == context_type)).map
      (fun r => r.content))

/-- The user with the smallest id (SELECT id FROM users ORDER BY id LIMIT 1). -/
def firstUserById : List UserRow → Option UserRow → Option UserRow
  | [], acc => acc
  | u :: us, none => firstUserById us (some u)
  | u :: us, some v => firstUserById us (some (if u.id < v.id then u else v))

/-- ContextDatabase.validate_api_key.  Mirrors the source exactly: an empty,
"undefined" or "null" key returns user 1 before anything else; a missing pool
returns user 1; the stored key is looked up; an unrecognized key falls back to
the first user by id (skipped when that id is 0, Python falsiness); with no
users at all a development user is inserted and its id returned; any caught
exception returns user 1.  The function never returns none. -/
def validate_api_key (db : ContextDatabase) (api_key : String) :
    ContextDatabase × Option Nat :=
  if api_key == "" || pyLower api_key == "undefined" || api_key == "null" then
    (db, some 1)
  else if !db.poolUp then (db, some 1)
  else if db.failing then (db, some 1)
  else
    match db.users.find? (fun u => u.api_key == some api_key) with
    | some u => (db, some u.id)
    | none =>
        match firstUserById db.users none with
        | some u =>
            if u.id == 0 then
              let dev : UserRow :=
                { id := db.nextUserId, tenant_id := "default", google_id := some "dev_user"
                  email := some "dev@example.com", api_key := some "DEV_API_KEY" }
              ({ db with users := dev :: db.users, nextUserId := db.nextUserId + 1 },
                some dev.id)
            else (db, some u.id)
        | none =>
            let dev : UserRow :=
              { id := db.nextUserId, tenant_id := "default", google_id := some "dev_user"
                email := some "dev@example.com", api_key := some "DEV_API_KEY" }
            ({ db with users := dev :: db.users, nextUserId := db.nextUserId + 1 },
              some dev.id)

/-- The fixed ordered keyword table of determine_context_type_simple in
backend/routers/context_router.py: the if/elif chain, one entry per branch,
in source order. -/
def keywordTable : List (String × List String) :=
  [("github", ["code", "repository", "github", "commit", "repo", "pr", "issue"]),
   ("notes", ["note", "notes", "wrote", "writing", "document", "obsidian"]),
   ("values", ["value", "preference", "important to me", "i like", "i dislike"]),
   ("conversations", ["conversation", "discussed", "said", "told me", "meeting"]),
   ("tasks", ["task", "todo", "project", "goal", "deadline", "schedule"]),
   ("work", ["work", "job", "professional", "career", "industry"]),
   ("media", ["video", "article", "podcast", "read", "watch", "book", "movie"]),
   ("locations", ["place", "travel", "location", "city", "country", "visit"])]

/-- determine_context_type_simple: lowercase the query, walk the keyword table
in order, return the first category one of whose keywords occurs in the
lowercased query as a substring; with no hit return the sentinel
"comprehensive". -/
def determine_context_type_simple (query : String) : String :=
  let ql := pyLower query
  match keywordTable.find? (fun p => p.2.any fun k => pyIn k ql) with
  | some p => p.1
  | none => "comprehensive"

/-- ContextRouter.determine_context_type: delegate to the external Gemini
classifier when one is configured, falling back to the keyword table when it
is absent or raises. -/
def determine_context_type (gemini : Option (String → Except Unit String))
    (query : String) : String :=
  match gemini with
  | some f =>
      match f query with
      | Except.ok ct => ct
      | Except.error _ => determine_context_type_simple query
  | none => determine_context_type_simple query

/-- The dict an adapter returns from get_context: keys type and content. -/
structure AdapterRes where
  rtype : String
  content : String
deriving DecidableEq

/-- Concatenation of the dumped contents of retrieved entries, standing in for
the Python str() rendering of the list of row dicts that the adapters return
when no summarizer is configured. -/
def strOfEntries (es : List Entry) : String :=
  String.intercalate ", " (es.map fun e => Json.dumps e.content)

/-- NotesRouter_get_context: read the notes bank from the database when a
handle was injected and return its rendered rows; on no handle, no data, or a
database error fall through to the placeholder.  ContextRouter constructs
every specialized router with no arguments, so no summarizer is ever present
and the Gemini branch is dead; it is elided here. -/
def NotesRouter_get_context (db : Option ContextDatabase) (user_id : Nat)
    (tenant_id query : String) : AdapterRes :=
  match db with
  | some d =>
      match get_context d user_id tenant_id "notes" none none with
      | Except.ok es =>
          if es.isEmpty then { rtype := "notes", content := "[Notes context placeholder]" }
          else { rtype := "notes", content := strOfEntries es }
      | Except.error _ => { rtype := "notes", content := "[Notes context placeholder]" }
  | none => { rtype := "notes", content := "[Notes context placeholder]" }

/-- GitHubRouter_get_context: same shape as the notes adapter; with no
database handle or no cached rows it falls through to the placeholder
return at the end of the function. -/
def GitHubRouter_get_context (db : Option ContextDatabase) (user_id : Nat)
    (tenant_id query : String) : AdapterRes :=
  match db with
  | some d =>
      match get_context d user_id tenant_id "github" none none with
      | Except.ok es =>
          if es.isEmpty then { rtype := "github", content := "[GitHub context placeholder]" }
          else { rtype := "github", content := strOfEntries es }
      | Except.error _ => { rtype := "github", content := "[GitHub context placeholder]" }
  | none => { rtype := "github", content := "[GitHub context placeholder]" }

/-- The eight specialized routers, in the dict order of
ContextRouter.specialized_routers. -/
inductive AdapterKind where
  | github | notes | values | conversations | tasks | work | media | locations
deriving DecidableEq

/-- The registry keys of ContextRouter.specialized_routers, in dict order. -/
def registeredRouters : List AdapterKind :=
  [AdapterKind.github, AdapterKind.notes, AdapterKind.values, AdapterKind.conversations,
   AdapterKind.tasks, AdapterKind.work, AdapterKind.media, AdapterKind.locations]

/-- The dict key naming each specialized router. -/
def adapterName : AdapterKind → String
  | AdapterKind.github => "github"
  | AdapterKind.notes => "notes"
  | AdapterKind.values => "values"
  | AdapterKind.conversations => "conversations"
  | AdapterKind.tasks => "tasks"
  | AdapterKind.work => "work"
  | AdapterKind.media => "media"
  | AdapterKind.locations => "locations"

/-- ContextRouter.route calls router.get_context(user_id, tenant_id, query)
with three positional arguments on every registered router.  GitHubRouter and
NotesRouter declare (self, user_id, tenant_id, query) and are invoked with the
dependencies the constructor gave them — none, since ContextRouter.__init__
builds every specialized router with no arguments.  ValuesRouter,
ConversationsRouter, TasksRouter, WorkRouter, MediaRouter and LocationsRouter
declare only (self, user_id, query), so binding the three supplied arguments
raises TypeError at the call site. -/
def call_specialized_get_context (k : AdapterKind) (user_id : Nat)
    (tenant_id query : String) : Except PyExn AdapterRes :=
  match k with
  | AdapterKind.github => Except.ok (GitHubRouter_get_context none user_id tenant_id query)
  | AdapterKind.notes => Except.ok (NotesRouter_get_context none user_id tenant_id query)
  | AdapterKind.values => Except.error PyExn.typeError
  | AdapterKind.conversations => Except.error PyExn.typeError
  | AdapterKind.tasks => Except.error PyExn.typeError
  | AdapterKind.work => Except.error PyExn.typeError
  | AdapterKind.media => Except.error PyExn.typeError
  | AdapterKind.locations => Except.error PyExn.typeError

/-- Builds the task list of the comprehensive fan-out and gathers the results;
the first raised exception (the TypeError from the first two-argument adapter)
propagates to route. -/
def gather_specialized : List AdapterKind → Nat → String → String →
    Except PyExn (List AdapterRes)
  | [], _, _, _ => Except.ok []
  | k :: ks, user_id, tenant_id, query =>
      match call_specialized_get_context k user_id tenant_id query with
      | Except.error e => Except.error e
      | Except.ok r =>
          match gather_specialized ks user_id tenant_id query with
          | Except.error e => Except.error e
          | Except.ok rs => Except.ok (r :: rs)

/-- The dict ContextRouter.route returns: type, content, and the optional
sources list that only the comprehensive merge adds. -/
structure RouteResult where
  rtype : String
  content : String
  sources : Option (List String)
deriving DecidableEq

/-- A ContextRouter instance: the injected database handle and the optional
Gemini classifier (only classification is modelled; the specialized routers
never receive either dependency). -/
structure ContextRouter where
  db : ContextDatabase
  gemini : Option (String → Except Unit String)

/-- ContextRouter.route.  A falsy context_type argument (absent or empty)
triggers classification; the comprehensive branch fans out to every
registered router and merges the non-error results, recording their types as
sources; a named registered router is invoked alone; an unknown category
yields the error-typed dict. -/
def ContextRouter.route (cr : ContextRouter) (user_id : Nat)
    (tenant_id query : String) (context_type : Option String) :
    Except PyExn RouteResult :=
  let ct :=
    match context_type with
    | none => determine_context_type cr.gemini query
    | some c => if c == "" then determine_context_type cr.gemini query else c
  if ct == "comprehensive" then
    match gather_specialized registeredRouters user_id tenant_id query with
    | Except.error e => Except.error e
    | Except.ok results =>
        if results.isEmpty then
          Except.ok { rtype := "no_context"
                      content := "No relevant context found for the query."
                      sources := none }
        else if results.length > 1 then
          let valid := results.filter fun r => r.rtype != "error"
          Except.ok { rtype := "comprehensive"
                      content := String.intercalate "\n\n---\n\n" (valid.map (fun r => r.content))
                      sources := some (valid.map (fun r => r.rtype)) }
        else
          match results with
          | r :: _ => Except.ok { rtype := r.rtype, content := r.content, sources := none }
          | [] => Except.ok { rtype := "no_context"
                              content := "No relevant context found for the query."
                              sources := none }
  else
    match registeredRouters.find? (fun k => adapterName k == ct) with
    | some k =>
        match call_specialized_get_context k user_id tenant_id query with
        | Except.error e => Except.error e
        | Except.ok r => Except.ok { rtype := r.rtype, content := r.content, sources := none }
    | none =>
        Except.ok { rtype := "error"
                    content := "Could not handle context type: " ++ ct
                    sources := none }

/-- The methods the class ContextDatabase defines, from
backend/database/context_storage.py. -/
def contextDatabaseMethods : List String :=
  ["initialize", "close", "create_or_get_user", "store_context", "get_context",
   "delete_user_data", "validate_api_key", "get_all_context_by_type",
   "get_user_settings_by_id", "update_user_settings_by_id", "search_context"]

/-- Modelled from the spec: delete_category(user_id, tenant_id, category),
the bulk wipe of one memory bank that clear_jean_memory_bank expects the
store to provide (as delete_context_by_type_and_user).  ContextDatabase
defines no such method, so this definition is taken from the spec sentence
and is reachable below only behind the method-exists test. -/
def delete_category (db : ContextDatabase) (user_id : Nat)
    (tenant_id context_type : String) : ContextDatabase × Bool :=
  ({ db with
      rows := db.rows.filter fun r =>
        !(r.user_id == user_id && r.tenant_id == tenant_id &&
          r.context_type == context_type) }, true)

/-- The clear_jean_memory_bank MCP tool from
backend/jean_mcp/tools/core_memory_tools.py: after the guard checks it calls
db.delete_context_by_type_and_user(user_id, tenant_id, context_type).  The
attribute lookup on the ContextDatabase instance raises AttributeError
(the class defines no such method), the surrounding except block catches it,
and the tool reports success False with the store untouched. -/
def clear_jean_memory_bank (db : Option ContextDatabase) (user_id : Option Nat)
    (tenant_id context_type_to_clear : String) : Option ContextDatabase × Bool :=
  match db with
  | none => (none, false)
  | some d =>
      match user_id with
      | none => (some d, false)
      | some uid =>
          if uid == 0 then (some d, false)
          else if context_type_to_clear == "" then (some d, false)
          else if contextDatabaseMethods.contains "delete_context_by_type_and_user" then
            let res := delete_category d uid tenant_id context_type_to_clear
            (some res.1, res.2)
          else (some d, false)

/-- A filter whose predicate fails on every element of the list is empty. -/
theorem filter_none {α : Type} (p : α → Bool) :
    ∀ l : List α, (∀ a ∈ l, p a = false) → l.filter p = []
  | [], _ => rfl
  | a :: t, h => by
      have ha := h a (List.mem_cons_self a t)
      have ht := filter_none p t fun b hb => h b (List.mem_cons_of_mem a hb)
      simp [List.filter_cons, ha, ht]

/-- A filter whose predicate holds on every element of the list is the list. -/
theorem filter_all {α : Type} (p : α → Bool) :
    ∀ l : List α, (∀ a ∈ l, p a = true) → l.filter p = l
  | [], _ => rfl
  | a :: t, h => by
      have ha := h a (List.mem_cons_self a t)
      have ht := filter_all p t fun b hb => h b (List.mem_cons_of_mem a hb)
      simp [List.filter_cons, ha, ht]

/-- C1: tenant isolation of the scoped store operations.  When every stored
row belongs to tenant T1 and a different tenant T2 is supplied with the same
user id and category, get_context and search_context return the empty list
and delete_user_data deletes nothing and leaves the store unchanged. -/
theorem scoped_ops_ignore_foreign_tenant
    (db : ContextDatabase) (uid : Nat) (T1 T2 ct q : String)
    (src : Option String) (lim lim2 : Option Nat)
    (hpool : db.poolUp = true) (hfail : db.failing = false)
    (hT : ∀ r ∈ db.rows, r.tenant_id = T1) (hne : T1 ≠ T2) :
    get_context db uid T2 ct src lim = Except.ok []
    ∧ search_context db uid T2 ct q lim2 = Except.ok []
    ∧ (delete_user_data db uid T2).map (fun p => (p.1.rows, p.2))
        = Except.ok (db.rows, true) := by
  have hten : ∀ r ∈ db.rows, (r.tenant_id == T2) = false := by
    intro r hr
    have := hT r hr
    simp [this, hne]
  refine ⟨?_, ?_, ?_⟩
  · have hnil :
        db.rows.filter (fun r =>
          r.user_id == uid && r.tenant_id == T2 && r.context_type == ct) = [] := by
      apply filter_none
      intro r hr
      simp [hten r hr]
    simp only [get_context, get_context_rows, hpool, hfail, Bool.not_true, if_false, hnil]
    cases src with
    | none => cases lim <;> simp [sortByUpdatedDesc]
    | some s =>
        by_cases hs : s == ""
        · cases lim <;> simp [hs, sortByUpdatedDesc]
        · cases lim <;> simp [hs, sortByUpdatedDesc]
  · have hnil :
        db.rows.filter (fun r =>
          r.user_id == uid && r.tenant_id == T2 && r.context_type == ct &&
          pyILike (Json.dumps r.content) q) = [] := by
      apply filter_none
      intro r hr
      simp [hten r hr]
    simp only [search_context, hpool, hfail, Bool.not_true, if_false, hnil]
    cases lim2 <;> simp [sortByUpdatedDesc]
  · have hall :
        db.rows.filter (fun r => !(r.user_id == uid && r.tenant_id == T2)) = db.rows := by
      apply filter_all
      intro r hr
      simp [hten r hr]
    have hdel : delete_user_data db uid T2
        = Except.ok
            ({ db with
                rows := db.rows.filter fun r => !(r.user_id == uid && r.tenant_id == T2) },
              true) := by
      simp [delete_user_data, hpool, hfail]
    rw [hdel]
    show Except.ok (db.rows.filter fun r => !(r.user_id == uid && r.tenant_id == T2), true)
      = Except.ok (db.rows, true)
    rw [hall]

/-- A stored row under tenant t1, to exercise the isolation theorems. -/
def rowTenant1 : Row :=
  { id := 1, user_id := 1, tenant_id := "t1", context_type := "notes"
    source_identifier := some "a", content := Json.str "t1-data"
    metadata := Json.obj [], created_at := 1, updated_at := 1 }

/-- A single-tenant store holding one notes row under tenant t1. -/
def dbOneTenant : ContextDatabase :=
  { users := [], rows := [rowTenant1], nextUserId := 1, nextId := 2
    poolUp := true, failing := false }

/-- Witness for C1 at a concrete store: the row exists under t1, the three
operations issued with tenant t2 see and touch nothing. -/
theorem scoped_ops_ignore_foreign_tenant_witness :
    get_context dbOneTenant 1 "t2" "notes" none none = Except.ok []
    ∧ search_context dbOneTenant 1 "t2" "notes" "t1-data" none = Except.ok []
    ∧ (delete_user_data dbOneTenant 1 "t2").map (fun p => (p.1.rows, p.2))
        = Except.ok (dbOneTenant.rows, true) :=
  scoped_ops_ignore_foreign_tenant dbOneTenant 1 "t1" "t2" "notes" "t1-data" none none none
    rfl rfl
    (by intro r hr; simp [dbOneTenant] at hr; simp [hr, rowTenant1])
    (by decide)

/-- A second stored row with the same user id under the other tenant t2. -/
def rowTenant2 : Row :=
  { id := 2, user_id := 1, tenant_id := "t2", context_type := "notes"
    source_identifier := some "b", content := Json.str "t2-data"
    metadata := Json.obj [], created_at := 2, updated_at := 2 }

/-- A store holding notes rows for the same user id under two tenants. -/
def dbTwoTenants : ContextDatabase :=
  { users := [], rows := [rowTenant1, rowTenant2], nextUserId := 1, nextId := 3
    poolUp := true, failing := false }

/-- C2: get_all_context_by_type takes no tenant_id and its WHERE clause has no
tenant conjunct, so for a user id that (whether legitimately or through an
inconsistent write) has rows under two tenants it returns the documents of
both, while the tenant-parameterized get_context returns exactly the one row
of the supplied tenant.  This contradicts the claim that every read path is
scoped to the supplied tenant. -/
theorem get_all_context_by_type_crosses_tenants :
    get_all_context_by_type dbTwoTenants 1 "notes"
        = Except.ok [Json.str "t2-data", Json.str "t1-data"]
    ∧ get_context dbTwoTenants 1 "t1" "notes" none none
        = Except.ok [rowToEntry rowTenant1]
    ∧ get_context dbTwoTenants 1 "t2" "notes" none none
        = Except.ok [rowToEntry rowTenant2] :=
  ⟨rfl, rfl, rfl⟩

/-- A store with no user rows at all. -/
def dbNoUsers : ContextDatabase :=
  { users := [], rows := [], nextUserId := 1, nextId := 1
    poolUp := true, failing := false }

/-- C3 counterexample: the empty credential is stored for no user, yet
validate_api_key returns user 1 (the DEVELOPMENT MODE branch) instead of the
no-match outcome the claim requires. -/
theorem validate_api_key_empty_key_maps_to_user_one :
    (validate_api_key dbNoUsers "").2 = some 1 ∧ dbNoUsers.users = [] :=
  ⟨rfl, rfl⟩

/-- C3 amended: validate_api_key returns the id of the user whose stored
credential equals the supplied key when there is one (given a live pool and a
non-falsy key), but it never returns none: every fallback branch — falsy key,
missing pool, storage fault, unrecognized key, empty users table — produces
some user id. -/
theorem validate_api_key_never_none (db : ContextDatabase) (key : String) :
    (validate_api_key db key).2 ≠ none
    ∧ ((key == "") = false → (pyLower key == "undefined") = false →
       (key == "null") = false → db.poolUp = true → db.failing = false →
       ∀ u : UserRow, db.users.find? (fun v => v.api_key == some key) = some u →
         (validate_api_key db key).2 = some u.id) := by
  constructor
  · unfold validate_api_key
    split
    · simp
    · split
      · simp
      · split
        · simp
        · split
          · simp
          · split
            · split <;> simp
            · simp
  · intro h1 h2 h3 hpool hfail u hu
    simp [validate_api_key, h1, h2, h3, hpool, hfail, hu]

/-- A store with one user whose credential is key-7. -/
def dbOneUser : ContextDatabase :=
  { users := [{ id := 7, tenant_id := "t1", google_id := some "g7"
                email := some "u7@example.com", api_key := some "key-7" }]
    rows := [], nextUserId := 8, nextId := 1, poolUp := true, failing := false }

/-- Witness for C3 amended: a stored credential resolves to its owner, and the
result is not none. -/
theorem validate_api_key_never_none_witness :
    (validate_api_key dbOneUser "key-7").2 ≠ none
    ∧ (validate_api_key dbOneUser "key-7").2 = some 7 :=
  ⟨(validate_api_key_never_none dbOneUser "key-7").1,
   (validate_api_key_never_none dbOneUser "key-7").2 (by decide) (by decide) (by decide)
     rfl rfl
     { id := 7, tenant_id := "t1", google_id := some "g7"
       email := some "u7@example.com", api_key := some "key-7" } rfl⟩

/-- A filter over the list obtained by updating exactly the matching elements
in place stays empty when the original filter was empty, provided the update
preserves the predicate. -/
theorem filter_map_update_nil {α : Type} (p : α → Bool) (f : α → α)
    (hp : ∀ a, p (f a) = p a) :
    ∀ l : List α, l.filter p = [] →
      (l.map fun a => if p a then f a else a).filter p = []
  | [], _ => rfl
  | a :: t, h => by
      by_cases ha : p a
      · simp [List.filter_cons, ha] at h
      · have hh : t.filter p = [] := by simpa [List.filter_cons, ha] using h
        have ht := filter_map_update_nil p f hp t hh
        simp [List.filter_cons, ha, ht]

/-- Updating exactly the matching elements of a list whose filter is the
singleton [r] yields a list whose filter is the singleton [f r], provided the
update preserves the predicate. -/
theorem filter_map_update {α : Type} (p : α → Bool) (f : α → α)
    (hp : ∀ a, p (f a) = p a) :
    ∀ (l : List α) (r : α), l.filter p = [r] →
      (l.map fun a => if p a then f a else a).filter p = [f r]
  | [], r, h => by simp at h
  | a :: t, r, h => by
      by_cases ha : p a
      · rw [List.filter_cons, if_pos ha] at h
        injection h with h1 h2
        subst h1
        have ht := filter_map_update_nil p f hp t h2
        have hfa : p (f a) = true := by rw [hp a]; exact ha
        simp [List.filter_cons, ha, hfa, ht]
      · rw [List.filter_cons, if_neg ha] at h
        have ht := filter_map_update p f hp t r h
        simp [List.filter_cons, ha, ht]

/-- A list whose filter is the singleton [r] has an element satisfying the
predicate. -/
theorem any_of_filter_singleton {α : Type} (p : α → Bool) (l : List α) (r : α)
    (h : l.filter p = [r]) : l.any p = true := by
  have hr : r ∈ l.filter p := by
    rw [h]
    exact List.mem_singleton_self r
  obtain ⟨hrl, hpr⟩ := List.mem_filter.mp hr
  exact List.any_eq_true.mpr ⟨r, hrl, hpr⟩

/-- C4: upsert idempotence under the uniqueness invariant.  In a state whose
unique entry for the supplied (tenant, user, category, source_key) tuple is r,
store_context with that key and new content succeeds, leaves exactly one
entry for the key — the row r with content and metadata replaced and
updated_at refreshed, id and created_at untouched — and creates no second
entry (the table keeps its length). -/
theorem upsert_updates_single_entry
    (db : ContextDatabase) (now : Nat) (uid : Nat) (tid ct s : String)
    (x m : Json) (r : Row)
    (hpool : db.poolUp = true) (hfail : db.failing = false)
    (hkey : db.rows.filter (keyFilter uid tid ct s) = [r]) :
    store_context db now uid tid ct x (some s) (some m)
      = Except.ok
          ({ db with
              rows := db.rows.map fun row =>
                if keyFilter uid tid ct s row then
                  { row with content := x, metadata := m, updated_at := now }
                else row }, true)
    ∧ (db.rows.map fun row =>
          if keyFilter uid tid ct s row then
            { row with content := x, metadata := m, updated_at := now }
          else row).filter (keyFilter uid tid ct s)
        = [{ r with content := x, metadata := m, updated_at := now }]
    ∧ (db.rows.map fun row =>
          if keyFilter uid tid ct s row then
            { row with content := x, metadata := m, updated_at := now }
          else row).length = db.rows.length := by
  have hany := any_of_filter_singleton (keyFilter uid tid ct s) db.rows r hkey
  refine ⟨?_, ?_, ?_⟩
  · simp [store_context, hpool, hfail, hany]
  · exact filter_map_update (keyFilter uid tid ct s)
      (fun row => { row with content := x, metadata := m, updated_at := now })
      (fun a => rfl) db.rows r hkey
  · exact List.length_map db.rows _

/-- The state of the C4 witness: one notes row under the key (t1, 1, notes, n1). -/
def dbUpsert : ContextDatabase :=
  { users := [], rows := [{ id := 4, user_id := 1, tenant_id := "t1"
                            context_type := "notes", source_identifier := some "n1"
                            content := Json.str "old", metadata := Json.obj []
                            created_at := 2, updated_at := 2 }]
    nextUserId := 1, nextId := 5, poolUp := true, failing := false }

/-- Witness for C4: rewriting the n1 note replaces its content in place,
preserving id 4 and created_at 2, refreshing updated_at, adding no row. -/
theorem upsert_updates_single_entry_witness :
    store_context dbUpsert 9 1 "t1" "notes" (Json.str "new") (some "n1")
        (some (Json.obj []))
      = Except.ok
          ({ dbUpsert with
              rows := dbUpsert.rows.map fun row =>
                if keyFilter 1 "t1" "notes" "n1" row then
                  { row with content := Json.str "new", metadata := Json.obj []
                             updated_at := 9 }
                else row }, true)
    ∧ (dbUpsert.rows.map fun row =>
          if keyFilter 1 "t1" "notes" "n1" row then
            { row with content := Json.str "new", metadata := Json.obj []
                       updated_at := 9 }
          else row).filter (keyFilter 1 "t1" "notes" "n1")
        = [{ id := 4, user_id := 1, tenant_id := "t1", context_type := "notes"
             source_identifier := some "n1", content := Json.str "new"
             metadata := Json.obj [], created_at := 2, updated_at := 9 }]
    ∧ (dbUpsert.rows.map fun row =>
          if keyFilter 1 "t1" "notes" "n1" row then
            { row with content := Json.str "new", metadata := Json.obj []
                       updated_at := 9 }
          else row).length = dbUpsert.rows.length :=
  upsert_updates_single_entry dbUpsert 9 1 "t1" "notes" "n1" (Json.str "new")
    (Json.obj [])
    { id := 4, user_id := 1, tenant_id := "t1", context_type := "notes"
      source_identifier := some "n1", content := Json.str "old"
      metadata := Json.obj [], created_at := 2, updated_at := 2 }
    rfl rfl rfl

/-- C10: with no source key the conflict clause never fires (SQL unique
constraints treat NULLs as distinct), so every store_context call inserts a
brand-new row: two identical writes with source_identifier NULL both succeed
and leave two distinct stored entries with the same user, tenant, category
and content on top of the original table. -/
theorem null_source_key_always_inserts
    (db : ContextDatabase) (n1 n2 : Nat) (uid : Nat) (tid ct : String)
    (x : Json) (m : Option Json)
    (hpool : db.poolUp = true) (hfail : db.failing = false) :
    ∃ db1 db2 : ContextDatabase,
      store_context db n1 uid tid ct x none m = Except.ok (db1, true)
      ∧ store_context db1 n2 uid tid ct x none m = Except.ok (db2, true)
      ∧ db2.rows =
          mkRow (db.nextId + 1) uid tid ct none x (m.getD (Json.obj [])) n2
            :: mkRow db.nextId uid tid ct none x (m.getD (Json.obj [])) n1
            :: db.rows := by
  refine
    ⟨{ db with
        rows := mkRow db.nextId uid tid ct none x (m.getD (Json.obj [])) n1 :: db.rows
        nextId := db.nextId + 1 },
     { db with
        rows := mkRow (db.nextId + 1) uid tid ct none x (m.getD (Json.obj [])) n2
                  :: mkRow db.nextId uid tid ct none x (m.getD (Json.obj [])) n1
                  :: db.rows
        nextId := db.nextId + 1 + 1 }, ?_, ?_, rfl⟩
  · simp [store_context, hpool, hfail]
  · simp [store_context, hpool, hfail]

/-- Witness for C10: two identical keyless writes to the empty store leave
two rows. -/
theorem null_source_key_always_inserts_witness :
    ∃ db1 db2 : ContextDatabase,
      store_context dbNoUsers 1 1 "t1" "notes" (Json.str "same") none none
        = Except.ok (db1, true)
      ∧ store_context db1 2 1 "t1" "notes" (Json.str "same") none none
        = Except.ok (db2, true)
      ∧ db2.rows =
          mkRow 2 1 "t1" "notes" none (Json.str "same") (Json.obj []) 2
            :: mkRow 1 1 "t1" "notes" none (Json.str "same") (Json.obj []) 1
            :: dbNoUsers.rows :=
  null_source_key_always_inserts dbNoUsers 1 2 1 "t1" "notes" (Json.str "same") none
    rfl rfl

/-- The state after a store_context call that succeeded (the .ok branch). -/
def afterStore (db : ContextDatabase) (now : Nat) (user_id : Nat)
    (tenant_id context_type : String) (content : Json)
    (source_identifier : Option String) (metadata : Option Json) : ContextDatabase :=
  match store_context db now user_id tenant_id context_type content
      source_identifier metadata with
  | Except.ok p => p.1
  | Except.error _ => db

/-- An initialized store with empty tables. -/
def emptyDb : ContextDatabase :=
  { users := [], rows := [], nextUserId := 1, nextId := 1
    poolUp := true, failing := false }

/-- C5 counterexample: storing the structured document with title x and
reading it back under the same key returns an entry whose content is the
serialized string of the document (asyncpg returns the jsonb column as text),
which is not the structured value itself. -/
theorem round_trip_returns_serialized_string :
    get_context (afterStore emptyDb 3 1 "t1" "notes"
        (Json.obj [("title", Json.str "x")]) (some "n1") none)
        1 "t1" "notes" (some "n1") none
      = Except.ok [{ id := 1, context_type := "notes", source_identifier := some "n1"
                     content := Json.str "\x7b\"title\": \"x\"\x7d"
                     metadata := Json.str "\x7b\x7d"
                     created_at := some 3, updated_at := some 3 }]
    ∧ Json.str "\x7b\"title\": \"x\"\x7d" ≠ Json.obj [("title", Json.str "x")] :=
  ⟨rfl, fun h => Json.noConfusion h⟩

/-- C5 amended: for every structured document X, store_context followed by
get_context with the same (user, tenant, category, source_key) returns exactly
one entry whose content is the JSON serialization of X as a string (and whose
metadata is the serialization of the supplied metadata), not the structured
value X itself. -/
theorem round_trip_content_is_serialization
    (X m : Json) (now : Nat) (uid : Nat) (tid ct s : String) :
    get_context (afterStore emptyDb now uid tid ct X (some s) (some m))
        uid tid ct (some s) none
      = Except.ok [{ id := 1, context_type := ct, source_identifier := some s
                     content := Json.str (Json.dumps X)
                     metadata := Json.str (Json.dumps m)
                     created_at := some now, updated_at := some now }] := by
  have hstep : afterStore emptyDb now uid tid ct X (some s) (some m)
      = { emptyDb with rows := [mkRow 1 uid tid ct (some s) X m now], nextId := 2 } := by
    simp [afterStore, store_context, emptyDb, keyFilter]
  rw [hstep]
  simp only [get_context, get_context_rows, emptyDb]
  by_cases hs : s == ""
  · simp [hs, mkRow, sortByUpdatedDesc, insertRowDesc, rowToEntry]
  · simp [hs, mkRow, sortByUpdatedDesc, insertRowDesc, rowToEntry]

/-- Witness for C5 amended at a concrete document. -/
theorem round_trip_content_is_serialization_witness :
    get_context (afterStore emptyDb 7 2 "tX" "prefs" (Json.num 5) (some "k")
        (some Json.null)) 2 "tX" "prefs" (some "k") none
      = Except.ok [{ id := 1, context_type := "prefs", source_identifier := some "k"
                     content := Json.str (Json.dumps (Json.num 5))
                     metadata := Json.str (Json.dumps Json.null)
                     created_at := some 7, updated_at := some 7 }] :=
  round_trip_content_is_serialization (Json.num 5) Json.null 7 2 "tX" "prefs" "k"

/-- C6: keyword-classifier fallback determinism.  With the external classifier
absent, or raising on every input, classification is the pure keyword-table
function: the GitHub query always classifies as github, and a query none of
whose table keywords occurs in its lowercased text always classifies as the
sentinel comprehensive. -/
theorem classifier_fallback_deterministic
    (f : String → Except Unit String) (q : String)
    (hf : ∀ str, f str = Except.error ())
    (hmiss : ∀ p ∈ keywordTable, ∀ k ∈ p.2, pyIn k (pyLower q) = false) :
    determine_context_type none "what\x27s in my GitHub repo" = "github"
    ∧ determine_context_type (some f) "what\x27s in my GitHub repo" = "github"
    ∧ determine_context_type none q = "comprehensive"
    ∧ determine_context_type (some f) q = "comprehensive" := by
  have hgh : determine_context_type_simple "what\x27s in my GitHub repo" = "github" := by
    decide
  have hnone :
      keywordTable.find? (fun p => p.2.any fun k => pyIn k (pyLower q)) = none := by
    rw [List.find?_eq_none]
    intro p hp hcon
    obtain ⟨k, hk, hpk⟩ := List.any_eq_true.mp hcon
    rw [hmiss p hp k hk] at hpk
    exact Bool.false_ne_true hpk
  have hcomp : determine_context_type_simple q = "comprehensive" := by
    simp [determine_context_type_simple, hnone]
  exact ⟨by simp [determine_context_type, hgh],
         by simp [determine_context_type, hf, hgh],
         by simp [determine_context_type, hcomp],
         by simp [determine_context_type, hf, hcomp]⟩

/-- An external classifier that raises on every input. -/
def alwaysRaising : String → Except Unit String := fun _ => Except.error ()

/-- Witness for C6 at the concrete query zzzz, which matches no keyword. -/
theorem classifier_fallback_deterministic_witness :
    determine_context_type none "what\x27s in my GitHub repo" = "github"
    ∧ determine_context_type (some alwaysRaising) "what\x27s in my GitHub repo" = "github"
    ∧ determine_context_type none "zzzz" = "comprehensive"
    ∧ determine_context_type (some alwaysRaising) "zzzz" = "comprehensive" :=
  classifier_fallback_deterministic alwaysRaising "zzzz" (fun _ => rfl) (by decide)

/-- A stored github row for the C7 scenario (category A has entries). -/
def rowGithub : Row :=
  { id := 1, user_id := 1, tenant_id := "t1", context_type := "github"
    source_identifier := some "g1", content := Json.str "gh-data"
    metadata := Json.obj [], created_at := 1, updated_at := 1 }

/-- A stored notes row for the C7 scenario (category B has entries). -/
def rowNotes : Row :=
  { id := 2, user_id := 1, tenant_id := "t1", context_type := "notes"
    source_identifier := some "n1", content := Json.str "note-data"
    metadata := Json.obj [], created_at := 2, updated_at := 2 }

/-- A store holding entries for categories github and notes and none for
values, for the comprehensive-route scenario. -/
def dbGithubNotes : ContextDatabase :=
  { users := [], rows := [rowGithub, rowNotes], nextUserId := 1, nextId := 3
    poolUp := true, failing := false }

/-- C7: the comprehensive route never reaches its merge.  In a state where
categories github and notes have stored entries for (user 1, tenant t1) and
values has none, the query everything classifies as comprehensive and the
fan-out immediately raises TypeError: route passes (user_id, tenant_id,
query) to every registered router, but six of the eight declare get_context
with only (user_id, query).  No sources list is ever produced. -/
theorem comprehensive_route_raises_type_error :
    get_context dbGithubNotes 1 "t1" "github" none none
        = Except.ok [rowToEntry rowGithub]
    ∧ get_context dbGithubNotes 1 "t1" "notes" none none
        = Except.ok [rowToEntry rowNotes]
    ∧ get_context dbGithubNotes 1 "t1" "values" none none = Except.ok []
    ∧ ContextRouter.route { db := dbGithubNotes, gemini := none } 1 "t1"
        "everything" none
        = Except.error PyExn.typeError :=
  ⟨rfl, rfl, rfl, rfl⟩

/-- C8 amended: a backing-store fault during get_context or search_context is
caught inside the operation and the empty list is returned — the same value
as a successful read that found nothing — so the caller cannot distinguish
storage failure from absence of data. -/
theorem store_faults_absorbed_to_empty
    (db : ContextDatabase) (uid : Nat) (tid ct q : String)
    (src : Option String) (lim lim2 : Option Nat)
    (hpool : db.poolUp = true) (hfail : db.failing = true) :
    get_context db uid tid ct src lim = Except.ok []
    ∧ search_context db uid tid ct q lim2 = Except.ok [] := by
  constructor
  · simp [get_context, hpool, hfail]
  · simp [search_context, hpool, hfail]

/-- A store whose backing store faults on use while holding a matching row. -/
def dbFailWithRow : ContextDatabase :=
  { users := [], rows := [rowTenant1], nextUserId := 1, nextId := 2
    poolUp := true, failing := true }

/-- C8 counterexample: reading the notes of user 1 under tenant t1 from a
faulting store that does hold such a row returns exactly the same value —
Except.ok [] — as reading from a healthy empty store, so the operation does
not surface a distinct error result. -/
theorem faulty_read_equals_no_data :
    get_context dbFailWithRow 1 "t1" "notes" none none
        = get_context emptyDb 1 "t1" "notes" none none
    ∧ get_context dbFailWithRow 1 "t1" "notes" none none = Except.ok []
    ∧ search_context dbFailWithRow 1 "t1" "notes" "t1-data" (some 10)
        = search_context emptyDb 1 "t1" "notes" "t1-data" (some 10)
    ∧ search_context dbFailWithRow 1 "t1" "notes" "t1-data" (some 10) = Except.ok []
    ∧ dbFailWithRow.rows = [rowTenant1] :=
  ⟨rfl, rfl, rfl, rfl, rfl⟩

/-- Witness for C8 amended at the concrete faulting store. -/
theorem store_faults_absorbed_to_empty_witness :
    get_context dbFailWithRow 1 "t1" "notes" none none = Except.ok []
    ∧ search_context dbFailWithRow 1 "t1" "notes" "x" (some 10) = Except.ok [] :=
  store_faults_absorbed_to_empty dbFailWithRow 1 "t1" "notes" "x" none none (some 10)
    rfl rfl

/-- A store holding one notes row, the bank clear_jean_memory_bank should wipe. -/
def dbNotesBank : ContextDatabase :=
  { users := [], rows := [rowNotes], nextUserId := 1, nextId := 3
    poolUp := true, failing := false }

/-- C9: the bulk category wipe does not exist.  ContextDatabase defines no
delete_context_by_type_and_user (nor any delete_category), so the attribute
lookup inside clear_jean_memory_bank raises AttributeError, the except block
reports failure, and the notes bank keeps its row instead of being cleared. -/
theorem clear_bank_cannot_delete :
    contextDatabaseMethods.contains "delete_context_by_type_and_user" = false
    ∧ clear_jean_memory_bank (some dbNotesBank) (some 1) "t1" "notes"
        = (some dbNotesBank, false)
    ∧ dbNotesBank.rows = [rowNotes] :=
  ⟨rfl, rfl, rfl⟩
